import Mathlib

/-!
Shallow embedding of the 6SENS event-dispatch and deferred-execution
scheduler core (src/src/action/handler.rs, src/src/action/publisher.rs,
src/src/io/input.rs), together with spec-modelled stand-ins for the
pieces of the crate that are referenced but whose source files are
absent (the `Routine` type, `IOCommand`, `Device::generate_event`,
`Chronicle::add_to_log`).

Modelling conventions:
- Wall-clock time is injected as a `Nat` parameter `now` (the Rust code
  reads `Utc::now()` ambiently).
- A Rust panic is modelled by `Option`: `none` is a panic, `some x` a
  normal return of `x`.
- `Vec<T>` is `List T`; `Vec::push` appends at the tail, `Vec::remove i`
  removes index `i` shifting the suffix left and panics when
  `i >= len`.
-/

/-- Raw device reading values. Modelled from the spec: the crate's
`RawValue` enum is not under src/; the spec only requires an equatable
numeric/boolean value that is carried through unchanged, so two variants
suffice. -/
inductive RawValue where
  | Binary : Bool → RawValue
  | Int : Int → RawValue
deriving DecidableEq, Repr

/-- Classification of data-flow direction (src/src/io/types/direction.rs). -/
inductive IODirection where
  | In
  | Out
deriving DecidableEq, Repr

/-- Device kind tag. Modelled from the spec: the `IOKind` enum is not
under src/ and no claim inspects it, so it is an opaque numeric tag. -/
abbrev IOKind := Nat

/-- Device metadata snapshot: name, numeric id, kind and direction, as
constructed by `DeviceMetadata::new(name, id, kind, direction)` in
src/src/io/input.rs. -/
structure DeviceMetadata where
  name : String
  id : Nat
  kind : IOKind
  direction : IODirection
deriving DecidableEq, Repr

/-- Timestamped reading: source device identity, reading kind, value and
timestamp (src/src/io/event.rs `IOEvent`, with the field shape used by
src/src/io/input.rs: `event.data.value`, `event.data.kind`). -/
structure IOEvent where
  sensor_id : Nat
  timestamp : Nat
  kind : IOKind
  value : RawValue
deriving DecidableEq, Repr

/-- A deferred instruction. Modelled from the spec: `Routine`'s source
file is not under src/. Per spec §4.2 it is an immutable record of
{due timestamp, device snapshot, value to write, command handle};
`cmdOk` records whether the bound command invocation succeeds when it is
eventually made (the command itself is opaque to the scheduler). -/
structure Routine where
  due : Nat
  device : DeviceMetadata
  value : RawValue
  cmdOk : Bool
deriving DecidableEq, Repr

/-- Modelled from the spec (§4.2): `Routine::is_due(now)` is true iff
`now >= due time`. -/
def Routine.is_due (r : Routine) (now : Nat) : Bool :=
  r.due ≤ now

/-- Modelled from the spec (§4.2): `Routine::attempt` returns `false`
with no side effect when not due; when due it invokes the bound command
and returns `true` on success, while a command failure "propagates as a
fatal condition for that attempt" — modelled as `Except`'s error, which
the caller's loop does not catch (a Rust panic). -/
def Routine.attempt (r : Routine) (now : Nat) : Except Unit Bool :=
  if r.is_due now then
    if r.cmdOk then .ok true else .error ()
  else
    .ok false

/-- `Vec::remove(i)`: removes the element at `i`, shifting the suffix
left; panics (`none`) when `i` is out of bounds. -/
def vecRemove (v : List α) (i : Nat) : Option (List α) :=
  if i < v.length then some (v.eraseIdx i) else none

/-- The scheduler's internal collection: `SchedRoutineHandler` wraps a
`Vec<Routine>` (src/src/action/handler.rs). -/
structure SchedRoutineHandler where
  routines : List Routine
deriving DecidableEq, Repr

namespace SchedRoutineHandler

/-- `SchedRoutineHandler::push`: add a `Routine` to the back of the
internal collection (src/src/action/handler.rs lines 12-14). -/
def push (s : SchedRoutineHandler) (r : Routine) : SchedRoutineHandler :=
  ⟨s.routines ++ [r]⟩

/-- `SchedRoutineHandler::scheduled`: read-only view of the internal
collection (src/src/action/handler.rs lines 38-40). -/
def scheduled (s : SchedRoutineHandler) : List Routine :=
  s.routines

/-- First loop of `attempt_routines`: iterate over the enumerated
collection, calling `attempt` on each member and recording the index of
every member whose `attempt` returned true, in ascending order. A fatal
condition from `attempt` propagates (`none` = panic). `i` is the index
of the head element. -/
def attemptPhase (now : Nat) : List Routine → Nat → Option (List Nat)
  | [], _ => some []
  | r :: rest, i =>
    match r.attempt now with
    | .error _ => none
    | .ok b =>
      match attemptPhase now rest (i + 1) with
      | none => none
      | some idxs => some (if b then i :: idxs else idxs)

/-- Second loop of `attempt_routines`: `for index in executed
{ self.0.remove(index); }` — remove each recorded index in turn from the
shrinking vector; `Vec::remove` panics (`none`) when the index is out of
bounds. -/
def removePhase : List Routine → List Nat → Option (List Routine)
  | v, [] => some v
  | v, i :: rest =>
    match vecRemove v i with
    | none => none
    | some v2 => removePhase v2 rest

/-- `SchedRoutineHandler::attempt_routines`
(src/src/action/handler.rs lines 24-35): collect the indices of all
members whose `attempt` returns true, then remove those indices one by
one. Returns the new collection, or `none` when the pass panics. -/
def attempt_routines (s : SchedRoutineHandler) (now : Nat) :
    Option SchedRoutineHandler :=
  match attemptPhase now s.routines 0 with
  | none => none
  | some executed =>
    match removePhase s.routines executed with
    | none => none
    | some v => some ⟨v⟩

end SchedRoutineHandler

/-- The Dispatcher (src/src/action/publisher.rs `Publisher`): an ordered
list of registered evaluators and an internal scheduler. The dynamic
`Box<dyn Action>` is embedded by parametrising over the action state
type `Act`; the trait method `evaluate` is passed explicitly as a
function `Act → IOEvent → Act` wherever the source would dispatch on the
trait object. -/
structure Publisher (Act : Type) where
  actions : List Act
  scheduled : SchedRoutineHandler

namespace Publisher

/-- `Publisher::subscribe` (src/src/action/publisher.rs lines 67-69):
push the subscriber onto the internal `Vec`. -/
def subscribe (p : Publisher Act) (a : Act) : Publisher Act :=
  { p with actions := p.actions ++ [a] }

/-- `Publisher::subscribers`: read-only view of the registration list. -/
def subscribers (p : Publisher Act) : List Act :=
  p.actions

/-- The loop body of `Publisher::propagate`: `for subscriber in
self.actions.iter_mut() { subscriber.evaluate(data); }` — call
`evaluate` on each subscriber in place, front to back. -/
def evalLoop (evalF : Act → IOEvent → Act) (e : IOEvent) :
    List Act → List Act
  | [] => []
  | a :: rest => evalF a e :: evalLoop evalF e rest

/-- `Publisher::propagate` (src/src/action/publisher.rs lines 75-81):
run the evaluation loop over the registered actions; the scheduler is
untouched. -/
def propagate (evalF : Act → IOEvent → Act) (p : Publisher Act)
    (e : IOEvent) : Publisher Act :=
  { p with actions := evalLoop evalF e p.actions }

/-- `Publisher::attempt_routines` (src/src/action/publisher.rs lines
35-37): `self.scheduled.attempt_routines()`; a panic inside the handler
propagates. -/
def attempt_routines (p : Publisher Act) (now : Nat) :
    Option (Publisher Act) :=
  match p.scheduled.attempt_routines now with
  | none => none
  | some s => some { p with scheduled := s }

end Publisher

/-- The spec's words for claim C7 (spec §4.5): the facade's effect on
the internal scheduler state equals applying
`SchedRoutineHandler::attempt_routines` to the `scheduled` field, while
the `actions` list is kept as it was. -/
def publisherAttemptRoutinesSpec (p : Publisher Act) (now : Nat) :
    Option (Publisher Act) :=
  (p.scheduled.attempt_routines now).map
    (fun s => { actions := p.actions, scheduled := s })

/-- Opaque, fallible device command. Modelled from the spec: `IOCommand`
is not under src/; per spec §6 a Command is "invocable with an optional
value and returning either a value (read) or a completion signal
(write), fallible", matching the `IOCommand::Input` / `IOCommand::Output`
constructors used by the tests in src/src/io/input.rs. -/
inductive IOCommand where
  | Input : (Unit → RawValue) → IOCommand
  | Output : (RawValue → Except Unit Unit) → IOCommand

/-- Modelled from the spec (§6): executing a Command. A read takes no
value and yields one; a write takes a value and yields a completion
signal; a direction/value mismatch is an error. -/
def IOCommand.execute (c : IOCommand) (value : Option RawValue) :
    Except Unit (Option RawValue) :=
  match c, value with
  | Input f, none => .ok (some (f ()))
  | Input _, some _ => .error ()
  | Output f, some v =>
    match f v with
    | .ok _ => .ok none
    | .error e => .error e
  | Output _, none => .error ()

/-- An input device (src/src/io/input.rs `GenericInput`): metadata, an
optional log, an optional publisher and an optional low-level command. -/
structure GenericInput (Act : Type) where
  metadata : DeviceMetadata
  log : Option (List IOEvent)
  publisher : Option (Publisher Act)
  command : Option IOCommand

namespace GenericInput

/-- Modelled from the spec: `Device::generate_event` is not under src/;
per the spec's Event data model it wraps the read value with the source
device's identity and kind and the current timestamp (cf.
`IOEvent::create` in src/src/io/event.rs). -/
def generate_event (d : GenericInput Act) (now : Nat) (value : RawValue) :
    IOEvent :=
  ⟨d.metadata.id, now, d.metadata.kind, value⟩

/-- `GenericInput::rx` (src/src/io/input.rs lines 69-78): with no bound
command, return the `no_internal_closure` error; otherwise
`command.execute(None).unwrap()` then `.unwrap()` — either unwrap
panics (`none`) — and wrap the value into an event. -/
def rx (d : GenericInput Act) (now : Nat) : Option (Except Unit IOEvent) :=
  match d.command with
  | none => some (.error ())
  | some c =>
    match c.execute none with
    | .error _ => none
    | .ok none => none
    | .ok (some v) => some (.ok (d.generate_event now v))

/-- `GenericInput::propagate` (src/src/io/input.rs lines 83-87): forward
the event to the publisher when one is attached; a missing publisher is
a silent no-op. -/
def propagate (evalF : Act → IOEvent → Act) (d : GenericInput Act)
    (e : IOEvent) : GenericInput Act :=
  match d.publisher with
  | none => d
  | some p => { d with publisher := some (p.propagate evalF e) }

/-- Modelled from the spec: `Chronicle::add_to_log` is not under src/;
per spec §6 the log sink only ever receives appends, so the event is
appended to the log when one is attached. -/
def add_to_log (d : GenericInput Act) (e : IOEvent) : GenericInput Act :=
  match d.log with
  | none => d
  | some l => { d with log := some (l ++ [e]) }

/-- `GenericInput::read` (src/src/io/input.rs lines 95-103):
`self.rx().expect(..)` (a returned error becomes a panic), then
propagate, then log, then `Ok(event)`. -/
def read (evalF : Act → IOEvent → Act) (d : GenericInput Act) (now : Nat) :
    Option (GenericInput Act × IOEvent) :=
  match d.rx now with
  | none => none
  | some (.error _) => none
  | some (.ok event) => some ((d.propagate evalF event).add_to_log event, event)

end GenericInput

/-- A fixed device-metadata snapshot for concrete instances. -/
def md0 : DeviceMetadata := ⟨"dev", 0, 0, IODirection.Out⟩

/-- A routine due at time 0 whose command succeeds. -/
def rDue0 : Routine := ⟨0, md0, RawValue.Binary true, true⟩

/-- A routine due at time 1 whose command succeeds. -/
def rDue1 : Routine := ⟨1, md0, RawValue.Binary false, true⟩

/-- A routine due at time 2 whose command succeeds. -/
def rDue2 : Routine := ⟨2, md0, RawValue.Int 4, true⟩

/-- A routine due far in the future (time 100). -/
def rFut : Routine := ⟨100, md0, RawValue.Binary true, true⟩

/-- A routine due at time 0 whose command invocation fails. -/
def rFail : Routine := ⟨0, md0, RawValue.Binary true, false⟩

/-- A concrete read command returning the fixed value 3. -/
def inCmd : IOCommand := IOCommand.Input (fun _ => RawValue.Int 3)

/-- A concrete input device with a bound command and an empty log but no
publisher attached. -/
def d0 : GenericInput Unit := ⟨md0, some [], none, some inCmd⟩

theorem attemptPhase_all_future (now : Nat) :
    ∀ (l : List Routine) (i : Nat), (∀ r ∈ l, now < r.due) →
      SchedRoutineHandler.attemptPhase now l i = some []
  | [], _, _ => rfl
  | r :: rest, i, h => by
    have hr : now < r.due := h r (List.mem_cons_self r rest)
    have hatt : r.attempt now = .ok false := by
      simp [Routine.attempt, Routine.is_due, Nat.not_le.mpr hr]
    rw [SchedRoutineHandler.attemptPhase, hatt,
      attemptPhase_all_future now rest (i + 1)
        (fun x hx => h x (List.mem_cons_of_mem _ hx))]
    rfl

theorem evalLoop_eq_map {Act : Type} (evalF : Act → IOEvent → Act)
    (e : IOEvent) :
    ∀ l : List Act, Publisher.evalLoop evalF e l = l.map (fun a => evalF a e)
  | [] => rfl
  | a :: rest => by
    rw [Publisher.evalLoop, List.map_cons, evalLoop_eq_map evalF e rest]

/-- C1: the claim says pushing N due Routines into an empty handler and
calling attempt_routines once yields N executions and an empty
scheduler. The code violates this for every N ≥ 2: the removal loop
walks the recorded indices in ascending order while the vector shrinks,
so at N = 2 it removes index 0 and then calls `Vec::remove(1)` on a
one-element vector — a panic (`none`), not an empty scheduler. -/
theorem c1_two_due_routines_panic :
    ((SchedRoutineHandler.mk []).push rDue0 |>.push rDue1).attempt_routines 5
      = none := rfl

/-- C2: the claim says every Routine whose attempt returned true is
removed, none is executed twice, and none is silently lost. On
[due, due, not-due] the index-shifted removal removes index 0 (correct)
and then index 1 of the shrunken vector — the not-due routine. The
executed routine `rDue1` survives in the collection (and a second pass
executes it again), while `rFut`, whose attempt returned false, is
silently dropped. -/
theorem c2_wrong_routine_removed :
    SchedRoutineHandler.attempt_routines ⟨[rDue0, rDue1, rFut]⟩ 5
        = some ⟨[rDue1]⟩ ∧
      Routine.attempt rDue1 5 = .ok true ∧
      Routine.attempt rFut 5 = .ok false ∧
      SchedRoutineHandler.attempt_routines ⟨[rDue1]⟩ 5 = some ⟨[]⟩ :=
  ⟨rfl, rfl, rfl, rfl⟩

/-- C3: the claim says attempt_routines never panics for any internal
state. With three due Routines the removal loop runs `remove(0)`,
`remove(1)`, `remove(2)` on a vector that shrinks from 3 to 1 elements,
and the final `Vec::remove(2)` is out of bounds — a panic. -/
theorem c3_three_due_routines_panic :
    SchedRoutineHandler.attempt_routines ⟨[rDue0, rDue1, rDue2]⟩ 9 = none :=
  rfl

/-- C4: when every member Routine's due time is strictly in the future,
every attempt returns false, no index is recorded, and the removal loop
does nothing: the handler is returned unchanged, members and order
included. -/
theorem c4_all_future_unchanged (s : SchedRoutineHandler) (now : Nat)
    (h : ∀ r ∈ s.scheduled, now < r.due) :
    s.attempt_routines now = some s := by
  unfold SchedRoutineHandler.attempt_routines
  rw [attemptPhase_all_future now s.routines 0 h]
  rfl

theorem c4_all_future_unchanged_witness :
    SchedRoutineHandler.attempt_routines ⟨[rFut]⟩ 5 = some ⟨[rFut]⟩ :=
  c4_all_future_unchanged ⟨[rFut]⟩ 5 (by decide)

/-- C5 counterexample: the claim says a command failure of one due
Routine is exposed to the caller as a reported value, does not abort the
pass, and does not prevent other due Routines from executing and being
removed. On [failing-due, healthy-due] the failure propagates as a fatal
condition out of the first loop: the whole call panics (`none`), the
healthy due routine `rDue0` is neither executed nor removed, and no
failure value is returned (the source function returns unit). -/
theorem c5_failing_command_aborts_pass :
    SchedRoutineHandler.attempt_routines ⟨[rFail, rDue0]⟩ 5 = none := rfl

/-- C5 amended: when the command invocation of a due Routine fails
during an attempt_routines pass, the failure propagates as a fatal
condition (panic) out of attempt_routines, wherever the failing Routine
sits in the collection: the pass aborts, nothing is removed, later
Routines are not attempted, and no failure value is reported to the
caller. -/
theorem c5_failure_is_fatal (r : Routine) (pre post : List Routine)
    (now : Nat) (hdue : r.is_due now = true) (hfail : r.cmdOk = false) :
    SchedRoutineHandler.attempt_routines ⟨pre ++ r :: post⟩ now = none := by
  have herr : r.attempt now = .error () := by
    simp [Routine.attempt, hdue, hfail]
  have hphase : ∀ (l : List Routine) (i : Nat),
      SchedRoutineHandler.attemptPhase now (l ++ r :: post) i = none := by
    intro l
    induction l with
    | nil =>
      intro i
      rw [List.nil_append, SchedRoutineHandler.attemptPhase, herr]
    | cons a l' ih =>
      intro i
      rw [List.cons_append, SchedRoutineHandler.attemptPhase, ih (i + 1)]
      cases a.attempt now <;> rfl
  unfold SchedRoutineHandler.attempt_routines
  rw [hphase pre 0]

theorem c5_failure_is_fatal_witness :
    SchedRoutineHandler.attempt_routines ⟨[rDue2, rFail, rFut]⟩ 5 = none :=
  c5_failure_is_fatal rFail [rDue2] [rFut] 5 (by decide) (by decide)

/-- C6: subscribe appends the evaluator at the end of the registration
list, and propagate evaluates every registered evaluator exactly once,
in registration order (the resulting list is the in-order map of
`evaluate` over the old list), on the calling thread (the embedding is
sequential), touching nothing else of the Publisher. -/
theorem c6_subscribe_appends_propagate_in_order {Act : Type}
    (evalF : Act → IOEvent → Act) (p : Publisher Act) (e : IOEvent)
    (a : Act) :
    (p.subscribe a).subscribers = p.subscribers ++ [a] ∧
      (Publisher.propagate evalF p e).subscribers
        = p.subscribers.map (fun x => evalF x e) ∧
      (Publisher.propagate evalF p e).scheduled = p.scheduled := by
  refine ⟨rfl, ?_, rfl⟩
  simp [Publisher.propagate, Publisher.subscribers, evalLoop_eq_map]

/-- C7: Publisher::attempt_routines is an exact facade — its result
equals applying SchedRoutineHandler::attempt_routines to the `scheduled`
field while keeping the `actions` list unchanged (the spec-side
formulation `publisherAttemptRoutinesSpec`), panic included. -/
theorem c7_attempt_routines_facade {Act : Type} (p : Publisher Act)
    (now : Nat) :
    p.attempt_routines now = publisherAttemptRoutinesSpec p now := by
  unfold Publisher.attempt_routines publisherAttemptRoutinesSpec
  cases p.scheduled.attempt_routines now <;> rfl

/-- C9: push never fails (it is total), appends the Routine at the tail
of the scheduled sequence, grows the length by exactly one, and leaves
the previously pushed Routines as the unchanged prefix. -/
theorem c9_push_appends_tail (s : SchedRoutineHandler) (r : Routine) :
    (s.push r).scheduled = s.scheduled ++ [r] ∧
      (s.push r).scheduled.length = s.scheduled.length + 1 ∧
      (s.push r).scheduled.take s.scheduled.length = s.scheduled := by
  refine ⟨rfl, by simp [SchedRoutineHandler.push, SchedRoutineHandler.scheduled], ?_⟩
  simp [SchedRoutineHandler.push, SchedRoutineHandler.scheduled, List.take_left]

/-- C10: a GenericInput with a bound read command and a log but no
publisher still reads successfully: rx generates the event from the
command's value, the propagate step is a silent no-op (no error for the
missing publisher), the event is appended to the log, and read returns
it. -/
theorem c10_read_without_publisher {Act : Type}
    (evalF : Act → IOEvent → Act) (d : GenericInput Act) (now : Nat)
    (f : Unit → RawValue) (l : List IOEvent)
    (hc : d.command = some (IOCommand.Input f))
    (hp : d.publisher = none) (hl : d.log = some l) :
    d.read evalF now =
      some ({ d with log := some (l ++ [d.generate_event now (f ())]) },
        d.generate_event now (f ())) := by
  simp [GenericInput.read, GenericInput.rx, hc, IOCommand.execute,
    GenericInput.propagate, hp, GenericInput.add_to_log, hl]

theorem c10_read_without_publisher_witness :
    d0.read (fun (a : Unit) _ => a) 7 =
      some ({ d0 with log := some ([] ++ [d0.generate_event 7 (RawValue.Int 3)]) },
        d0.generate_event 7 (RawValue.Int 3)) :=
  c10_read_without_publisher (fun a _ => a) d0 7 (fun _ => RawValue.Int 3) []
    rfl rfl rfl
